import Mathlib

/-!
Verification of the audio container encoder (`bufferToWav`) and the
authenticated relay gateway (`callGemini`) of the repository, as a shallow
embedding in Lean.  Floating-point samples are modelled as rationals: every
arithmetic step of the encoder (clamp, scale by 32767/32768, truncation via
`|0`) is exact on the float values the source manipulates, so the rational
model is faithful.  A sample read out of bounds in JavaScript yields
`undefined`, which propagates as NaN through clamp and scaling and becomes 0
at the `|0` coercion; the model mirrors this through `Option`.  The data
loop of the encoder shares its cursor `pos` with the header writes and
never resets it, so it runs over source frames 44…len−1 only and leaves the
rest of the zero-initialized ArrayBuffer as zero bytes; the model embeds
exactly that.
-/

namespace LiaJettes

/-- Audio buffer as consumed by `bufferToWav`: per-channel float samples
(modelled as rationals) plus the sample rate. -/
structure AudioBuffer where
  numberOfChannels : Nat
  sampleRate : Nat
  channelData : List (List ℚ)
deriving Repr, DecidableEq

/-- Little-endian 16-bit write (`view.setUint16(pos, data, true)`):
the value is taken modulo 2^16 and laid out low byte first. -/
def le16 (n : Nat) : List Nat := [n % 256, n / 256 % 256]

/-- Little-endian 32-bit write (`view.setUint32(pos, data, true)`):
the value is taken modulo 2^32 and laid out low byte first. -/
def le32 (n : Nat) : List Nat :=
  [n % 256, n / 256 % 256, n / 2 ^ 16 % 256, n / 2 ^ 24 % 256]

/-- Truncation of a rational toward zero (the integer part that the
JavaScript coercion `|0` keeps before the 32-bit wrap). -/
def ratTrunc (q : ℚ) : ℤ := q.num.tdiv q.den

/-- JavaScript `x | 0`: wrap the (already truncated) integer into the
signed 32-bit range. -/
def toInt32 (z : ℤ) : ℤ := (z + 2 ^ 31) % 2 ^ 32 - 2 ^ 31

/-- Clamp of the encoder: `Math.max(-1, Math.min(1, s))`. -/
def clamp (s : ℚ) : ℚ := max (-1) (min 1 s)

/-- Quantization of one float sample by the encoder:
`(0.5 + sample < 0 ? sample * 32768 : sample * 32767) | 0` applied to the
clamped sample. -/
def quantizeSample (s : ℚ) : ℤ :=
  let c := clamp s
  toInt32 (ratTrunc (if (1 / 2 : ℚ) + c < 0 then c * 32768 else c * 32767))

/-- Reading `channels[i][pos]` and quantizing: in bounds this is
`quantizeSample`; out of bounds the JavaScript value is `undefined`, the
clamp and scaling produce NaN, and `NaN | 0` is 0. -/
def quantizeAt (chan : List ℚ) (pos : Nat) : ℤ :=
  match chan[pos]? with
  | some s => quantizeSample s
  | none => 0

/-- Twos-complement little-endian layout of a 16-bit sample
(`view.setInt16(_, sample, true)`). -/
def int16LE (z : ℤ) : List Nat :=
  let u := (z % 65536).toNat
  [u % 256, u / 256]

/-- One iteration of the interleaving for-loop: channel 0 first
(`for i in 0..numOfChan`), reading source frame `pos` of every channel. -/
def sampleBytes (b : AudioBuffer) (pos : Nat) : List Nat :=
  (List.range b.numberOfChannels).flatMap fun i =>
    int16LE (quantizeAt (b.channelData.getD i []) pos)

/-- The bytes the data loop writes.  The cursor `pos` is shared with the
header writes and is never reset, so `while(pos < len)` is entered with
`pos = 44`: the loop quantizes source frames 44, 45, …, `len - 1` (none at
all when `len ≤ 44`) and writes them from byte offset 44 + 0 on
(`offset` does start at 0). -/
def wavWritten (b : AudioBuffer) (len : Nat) : List Nat :=
  (List.range' 44 (len - 44)).flatMap (sampleBytes b)

/-- The encoder `bufferToWav(abuffer, len)`: 44-byte RIFF/WAVE header,
then the bytes of the data loop, then the untouched remainder of the
zero-initialized ArrayBuffer.  The sequential `setUint16`/`setUint32`
writes are modelled as list concatenation; at the data-chunk-size write the
cursor `pos` equals 40, so `length - pos - 4` is `length - 44`. -/
def bufferToWav (b : AudioBuffer) (len : Nat) : List Nat :=
  let numOfChan := b.numberOfChannels
  let length := len * numOfChan * 2 + 44
  le32 0x46464952 ++                       -- "RIFF"
  le32 (length - 8) ++                     -- file length - 8
  le32 0x45564157 ++                       -- "WAVE"
  le32 0x20746d66 ++                       -- "fmt " chunk
  le32 16 ++                               -- length = 16
  le16 1 ++                                -- PCM (uncompressed)
  le16 numOfChan ++
  le32 b.sampleRate ++
  le32 (b.sampleRate * 2 * numOfChan) ++   -- avg. bytes/sec
  le16 (numOfChan * 2) ++                  -- block-align
  le16 16 ++                               -- 16-bit
  le32 0x61746164 ++                       -- "data" chunk
  le32 (length - 44) ++                    -- chunk length
  (wavWritten b len ++
    List.replicate (len * numOfChan * 2 - (wavWritten b len).length) 0)

/-- The header §4.2 of the specification prescribes, written from the
words of the spec: ASCII magic strings, little-endian integers, and the stated
arithmetic on `totalLength = frameLimit × channelCount × 2 + 44`. -/
def specHeader (channelCount sampleRate frameLimit : Nat) : List Nat :=
  let totalLength := frameLimit * channelCount * 2 + 44
  [0x52, 0x49, 0x46, 0x46] ++              -- ASCII "RIFF"
  le32 (totalLength - 8) ++
  [0x57, 0x41, 0x56, 0x45] ++              -- ASCII "WAVE"
  [0x66, 0x6d, 0x74, 0x20] ++              -- ASCII "fmt "
  le32 16 ++
  le16 1 ++
  le16 channelCount ++
  le32 sampleRate ++
  le32 (sampleRate * 2 * channelCount) ++
  le16 (channelCount * 2) ++
  le16 16 ++
  [0x64, 0x61, 0x74, 0x61] ++              -- ASCII "data"
  le32 (totalLength - 44)

/-- Quantization as the spec words it: clamp to [-1, 1], then scale the
clamped value by 32768 when `0.5 + s < 0` and by 32767 otherwise, truncating
toward zero. -/
def specQuantize (s : ℚ) : ℤ :=
  let c := max (-1) (min 1 s)
  if (1 / 2 : ℚ) + c < 0 then ratTrunc (c * 32768) else ratTrunc (c * 32767)

/-- The data section as the spec words it: frames in order, channel-major
within each frame, each sample quantized and laid out as little-endian
signed 16-bit. -/
def specData (b : AudioBuffer) (frameLimit : Nat) : List Nat :=
  (List.range frameLimit).flatMap fun f =>
    (List.range b.numberOfChannels).flatMap fun c =>
      int16LE (specQuantize ((b.channelData.getD c []).getD f 0))

/-- The sample bytes the program actually emits, in spec-side terms: the
quantized interleaved samples of source frames 44…frameLimit−1 only
(none when frameLimit ≤ 44), since the loop cursor starts at 44. -/
def specDataShifted (b : AudioBuffer) (frameLimit : Nat) : List Nat :=
  (List.range' 44 (frameLimit - 44)).flatMap fun f =>
    (List.range b.numberOfChannels).flatMap fun c =>
      int16LE (specQuantize ((b.channelData.getD c []).getD f 0))

/-!
Relay gateway: shallow embedding of the `callGemini` request listener (the
body of the CORS callback).  External effects — the identity verification,
the credential lookup and the upstream generation call — are oracles in a
`RelayEnv`; the listener returns the HTTP response it sends together with a
trace of the external calls it made, in order.
-/

/-- A JavaScript value, as far as the relay inspects one. -/
inductive JSVal where
  | undefined
  | null
  | boolean (b : Bool)
  | number (q : ℚ)
  | string (s : String)
  | object (fields : List (String × JSVal))

/-- JavaScript truthiness for the values `JSVal` models. -/
def JSVal.truthy : JSVal → Bool
  | .undefined => false
  | .null => false
  | .boolean b => b
  | .number q => q != 0
  | .string s => s != ""
  | .object _ => true

/-- The destructured request body `{ model, contents, config }`; an absent
field destructures to `undefined`. -/
structure RequestBody where
  model : JSVal
  contents : JSVal
  config : JSVal

/-- The parts of the incoming HTTP request the listener reads. -/
structure RelayRequest where
  method : String
  authorization : Option String
  body : RequestBody

/-- The argument of `ai.models.generateContent`. -/
structure GenRequest where
  model : JSVal
  contents : JSVal
  config : JSVal

/-- The fields of the upstream result the relay extracts. -/
structure GenResult where
  text : JSVal
  candidates : JSVal
  usageMetadata : JSVal

/-- External world of the relay: identity verification (`Except` error =
the call threw), the two credential sources, and the upstream call. -/
structure RelayEnv where
  verifyIdToken : String → Except String Unit
  apiKeyConfig : Option String
  apiKeyEnv : Option String
  generateContent : GenRequest → Except String GenResult

/-- The response the listener sends: status and JSON body. -/
structure RelayResponse where
  status : Nat
  body : JSVal

/-- Trace of external calls: tokens passed to `verifyIdToken` and requests
passed to `generateContent`, in order. -/
structure RelayTrace where
  verifyCalls : List String
  upstreamCalls : List GenRequest

/-- Truthiness of a possibly-absent string (`undefined` and `""` are falsy). -/
def strTruthy : Option String → Bool
  | none => false
  | some s => s != ""

/-- JavaScript `a || b` on possibly-absent strings
(`functions.config().gemini?.apikey || process.env.GEMINI_API_KEY`). -/
def jsOrString (a b : Option String) : Option String :=
  if strTruthy a then a else b

/-- Test `authHeader.startsWith("Bearer ")`. -/
def startsWithBearer (h : String) : Bool :=
  "Bearer ".data.isPrefixOf h.data

/-- Characters before the next occurrence of `sep` (a split segment). -/
def takeUntilSep (sep : List Char) : List Char → List Char
  | [] => []
  | c :: rest => if sep.isPrefixOf (c :: rest) then [] else c :: takeUntilSep sep rest

/-- Value of `authHeader.split("Bearer ")[1]` for a header that starts with
`"Bearer "`: component 0 is `""` and component 1 is everything after the
leading separator up to its next occurrence. -/
def bearerToken (h : String) : String :=
  ⟨takeUntilSep "Bearer ".data (h.data.drop 7)⟩

/-- The request listener of `callGemini`, step for step: method check,
authorization-header check, token verification (its own try/catch maps a
throw to 401), credential resolution, body validation, upstream call (the
outer try/catch maps a throw to 500), success response. -/
def callGemini (env : RelayEnv) (req : RelayRequest) : RelayResponse × RelayTrace :=
  if req.method ≠ "POST" then
    (⟨405, .object [("error", .string ("Method Not Allowed"))]⟩, ⟨[], []⟩)
  else
    match req.authorization with
    | none =>
      (⟨401, .object [("error", .string ("Unauthorized - No token provided"))]⟩, ⟨[], []⟩)
    | some authHeader =>
      if ¬ startsWithBearer authHeader then
        (⟨401, .object [("error", .string ("Unauthorized - No token provided"))]⟩, ⟨[], []⟩)
      else
        let idToken := bearerToken authHeader
        match env.verifyIdToken idToken with
        | .error _ =>
          (⟨401, .object [("error", .string ("Unauthorized - Invalid token"))]⟩, ⟨[idToken], []⟩)
        | .ok _ =>
          let apiKey := jsOrString env.apiKeyConfig env.apiKeyEnv
          if ¬ strTruthy apiKey then
            (⟨500, .object [("error", .string ("API key not configured"))]⟩, ⟨[idToken], []⟩)
          else if !req.body.model.truthy || !req.body.contents.truthy then
            (⟨400, .object [("error", .string ("Missing required parameters: model and contents"))]⟩,
              ⟨[idToken], []⟩)
          else
            let params : GenRequest :=
              ⟨req.body.model, req.body.contents,
                if req.body.config.truthy then req.body.config else .object []⟩
            match env.generateContent params with
            | .ok result =>
              (⟨200, .object [("text", result.text), ("candidates", result.candidates),
                ("usageMetadata", result.usageMetadata)]⟩, ⟨[idToken], [params]⟩)
            | .error msg =>
              (⟨500, .object [("error", .string ("Failed to process request")),
                ("message", .string msg)]⟩, ⟨[idToken], [params]⟩)

/-! Concrete data used by the closed-instance theorems. -/

/-- A buffer whose single channel holds fewer samples than one frame. -/
def shortBuf : AudioBuffer := ⟨1, 8000, [[]]⟩

/-- A one-channel, one-frame buffer with an in-range sample. -/
def smallBuf : AudioBuffer := ⟨1, 8000, [[1 / 2]]⟩

/-- The upstream result of the success scenario in the spec. -/
def resultW : GenResult :=
  ⟨.string ("hello"), .undefined,
    .object [("promptTokenCount", .number 3), ("candidatesTokenCount", .number 1)]⟩

/-- Environment whose oracles always succeed. -/
def envW : RelayEnv where
  verifyIdToken := fun _ => .ok ()
  apiKeyConfig := none
  apiKeyEnv := some ("k")
  generateContent := fun _ => .ok resultW

def reqNoAuth : RelayRequest := ⟨"POST", none, ⟨.string ("x"), .string ("hi"), .undefined⟩⟩

def reqGet : RelayRequest := ⟨"GET", none, ⟨.undefined, .undefined, .undefined⟩⟩

def reqBadAuth : RelayRequest := ⟨"POST", some ("Basic abc"), ⟨.string ("x"), .string ("hi"), .undefined⟩⟩

def reqMissingModel : RelayRequest :=
  ⟨"POST", some ("Bearer VALIDTOKEN"), ⟨.undefined, .string ("hi"), .undefined⟩⟩

def reqOk : RelayRequest := ⟨"POST", some ("Bearer VALIDTOKEN"), ⟨.string ("x"), .string ("hi"), .undefined⟩⟩

theorem bufferToWav_decompose (b : AudioBuffer) (len : Nat) :
    bufferToWav b len =
      specHeader b.numberOfChannels b.sampleRate len ++
        (wavWritten b len ++
          List.replicate (len * b.numberOfChannels * 2 - (wavWritten b len).length) 0) := by
  simp [bufferToWav, specHeader, le32, le16]

theorem specHeader_length (c r f : Nat) : (specHeader c r f).length = 44 := by
  simp [specHeader, le32, le16]

theorem flatMap_range_length {α : Type} (f : Nat → List α) (m : Nat)
    (h : ∀ i, (f i).length = m) (n : Nat) :
    ((List.range n).flatMap f).length = n * m := by
  induction n with
  | zero => simp
  | succ n ih => simp [List.range_succ, ih, h, Nat.succ_mul]

theorem flatMap_range_getElem? {α : Type} (f : Nat → List α) (m : Nat)
    (h : ∀ i, (f i).length = m) (n i j : Nat) (hi : i < n) (hj : j < m) :
    ((List.range n).flatMap f)[i * m + j]? = (f i)[j]? := by
  induction n with
  | zero => omega
  | succ n ih =>
    rw [List.range_succ, List.flatMap_append, List.flatMap_singleton]
    by_cases hin : i < n
    · rw [List.getElem?_append_left]
      · exact ih hin
      · rw [flatMap_range_length f m h n]
        calc i * m + j < i * m + m := by omega
          _ = (i + 1) * m := by ring
          _ ≤ n * m := Nat.mul_le_mul_right m (by omega)
    · have hie : i = n := by omega
      subst hie
      rw [List.getElem?_append_right (by rw [flatMap_range_length f m h]; omega)]
      rw [flatMap_range_length f m h]
      congr 1
      omega

theorem flatMap_range'_length {α : Type} (f : Nat → List α) (m : Nat)
    (h : ∀ i, (f i).length = m) (n : Nat) :
    ∀ s : Nat, ((List.range' s n).flatMap f).length = n * m := by
  induction n with
  | zero => intro s; simp
  | succ n ih =>
    intro s
    rw [List.range'_succ, List.flatMap_cons, List.length_append, h s, ih (s + 1), Nat.succ_mul]
    omega

theorem flatMap_range'_getElem? {α : Type} (f : Nat → List α) (m : Nat)
    (h : ∀ i, (f i).length = m) (n : Nat) :
    ∀ s i j : Nat, i < n → j < m →
      ((List.range' s n).flatMap f)[i * m + j]? = (f (s + i))[j]? := by
  induction n with
  | zero => intro s i j hi hj; omega
  | succ n ih =>
    intro s i j hi hj
    rw [List.range'_succ, List.flatMap_cons]
    cases i with
    | zero =>
      rw [List.getElem?_append_left (by rw [h s]; omega)]
      simp
    | succ k =>
      have hmul : (k + 1) * m = k * m + m := by ring
      rw [List.getElem?_append_right (by rw [h s]; omega), h s,
        show (k + 1) * m + j - m = k * m + j from by omega,
        show s + (k + 1) = s + 1 + k from by omega]
      exact ih (s + 1) k j (by omega) hj

theorem sampleBytes_length (b : AudioBuffer) (pos : Nat) :
    (sampleBytes b pos).length = b.numberOfChannels * 2 := by
  unfold sampleBytes
  exact flatMap_range_length (fun i => int16LE (quantizeAt (b.channelData.getD i []) pos))
    2 (fun _ => rfl) b.numberOfChannels

theorem wavWritten_length (b : AudioBuffer) (len : Nat) :
    (wavWritten b len).length = (len - 44) * (b.numberOfChannels * 2) := by
  unfold wavWritten
  exact flatMap_range'_length (sampleBytes b) (b.numberOfChannels * 2)
    (sampleBytes_length b) (len - 44) 44

theorem bufferToWav_length (b : AudioBuffer) (len : Nat) :
    (bufferToWav b len).length = len * b.numberOfChannels * 2 + 44 := by
  rw [bufferToWav_decompose, List.length_append, List.length_append,
    List.length_replicate, specHeader_length, wavWritten_length]
  have h2 : (len - 44) * (b.numberOfChannels * 2) ≤ len * (b.numberOfChannels * 2) :=
    Nat.mul_le_mul_right _ (Nat.sub_le len 44)
  have h3 : len * (b.numberOfChannels * 2) = len * b.numberOfChannels * 2 := by ring
  omega

theorem toInt32_emod_65536 (z : ℤ) : toInt32 z % 65536 = z % 65536 := by
  unfold toInt32
  omega

theorem int16LE_toInt32 (z : ℤ) : int16LE (toInt32 z) = int16LE z := by
  simp only [int16LE, toInt32_emod_65536]

theorem quantizeSample_eq_toInt32_specQuantize (s : ℚ) :
    quantizeSample s = toInt32 (specQuantize s) := by
  simp only [quantizeSample, specQuantize, clamp]
  split <;> rfl

theorem quantizeAt_of_lt (chan : List ℚ) (pos : Nat) (h : pos < chan.length) :
    quantizeAt chan pos = quantizeSample (chan.getD pos 0) := by
  simp [quantizeAt, List.getElem?_eq_getElem h]

theorem quantizeAt_of_le (chan : List ℚ) (pos : Nat) (h : chan.length ≤ pos) :
    quantizeAt chan pos = 0 := by
  simp [quantizeAt, List.getElem?_eq_none h]

/-- C1: for every buffer and frame limit, the first 44 bytes of the
output of the encoder are exactly the RIFF/WAVE header of §4.2 of the
specification (magic strings, sizes, format fields, all little-endian). -/
theorem C1_header_matches_spec (b : AudioBuffer) (len : Nat) :
    (bufferToWav b len).take 44 = specHeader b.numberOfChannels b.sampleRate len := by
  rw [bufferToWav_decompose, List.take_left' (specHeader_length _ _ _)]

/-- C2 counterexample: with one channel holding the single sample 1/2 and
frame limit 1 (so frameLimit ≤ frameCount), the claimed layout predicts the
data bytes [255, 63] (the quantized value 16383, little-endian), but the
program emits [0, 0]: the data loop is entered with its cursor already at
44, so no frame at all is encoded. -/
theorem C2_counterexample :
    (bufferToWav smallBuf 1).drop 44 = [0, 0] ∧ specData smallBuf 1 = [255, 63] ∧
      (bufferToWav smallBuf 1).drop 44 ≠ specData smallBuf 1 := by
  have h1 : (bufferToWav smallBuf 1).drop 44 = [0, 0] := by decide
  have h2 : specData smallBuf 1 = [255, 63] := by
    norm_num [specData, smallBuf, List.range_succ, specQuantize, ratTrunc, int16LE]
    decide
  exact ⟨h1, h2, by rw [h1, h2]; decide⟩

/-- C2 amended: for every buffer whose channels all hold at least `len`
samples, bytes 44 onward of the output consist of the interleaved,
clamped, asymmetrically scaled, truncated-toward-zero 16-bit samples of
source frames 44…len−1 only (none at all when len ≤ 44), followed by zero
bytes padding the data section to `len × channelCount × 2` bytes: the data
loop starts at frame 44 because its cursor is not reset after the header
writes. -/
theorem C2_amended_shifted_data (b : AudioBuffer) (len : Nat)
    (h : ∀ c, c < b.numberOfChannels → len ≤ (b.channelData.getD c []).length) :
    (bufferToWav b len).drop 44 =
      specDataShifted b len ++
        List.replicate
          (len * b.numberOfChannels * 2 - (len - 44) * (b.numberOfChannels * 2)) 0 := by
  rw [bufferToWav_decompose, List.drop_left' (specHeader_length _ _ _), wavWritten_length]
  congr 1
  unfold wavWritten specDataShifted
  refine List.flatMap_congr fun f hf => ?_
  unfold sampleBytes
  refine List.flatMap_congr fun c hc => ?_
  rw [List.mem_range'_1] at hf
  rw [List.mem_range] at hc
  rw [quantizeAt_of_lt _ _ (lt_of_lt_of_le (show f < len from by omega) (h c hc)),
    quantizeSample_eq_toInt32_specQuantize, int16LE_toInt32]

theorem C2_amended_witness :
    (bufferToWav smallBuf 1).drop 44 =
      specDataShifted smallBuf 1 ++
        List.replicate
          (1 * smallBuf.numberOfChannels * 2 - (1 - 44) * (smallBuf.numberOfChannels * 2)) 0 :=
  C2_amended_shifted_data smallBuf 1
    (by intro c hc; simp only [smallBuf] at hc ⊢; interval_cases c; simp)

/-- C3: under the quantization rule of the encoder, 1.0 encodes to 32767,
-1.0 encodes to -32768, and 0.0 encodes to 0. -/
theorem C3_quantization_boundaries :
    quantizeSample 1 = 32767 ∧ quantizeSample (-1) = -32768 ∧ quantizeSample 0 = 0 := by
  refine ⟨?_, ?_, ?_⟩ <;> norm_num [quantizeSample, clamp, ratTrunc, toInt32]

/-- C4: the output length of the encoder is exactly
`frameLimit × channelCount × 2 + 44` bytes, for every buffer and frame
limit. -/
theorem C4_output_length (b : AudioBuffer) (len : Nat) :
    (bufferToWav b len).length = len * b.numberOfChannels * 2 + 44 :=
  bufferToWav_length b len

/-- C5 counterexample: on a one-channel buffer whose channel holds no
samples at all, `bufferToWav` with frame limit 1 does not fail — it returns
a full 46-byte container whose data section is the two zero bytes the
out-of-range read produces. -/
theorem C5_counterexample :
    (bufferToWav shortBuf 1).length = 46 ∧ (bufferToWav shortBuf 1).drop 44 = [0, 0] := by
  decide

theorem wavData_byte_zero (b : AudioBuffer) (len c pos j : Nat)
    (hc : c < b.numberOfChannels) (hpos : pos < len) (hj : j < 2)
    (hshort : (b.channelData.getD c []).length ≤ pos) :
    (bufferToWav b len)[44 + (pos * (b.numberOfChannels * 2) + (c * 2 + j))]? = some 0 := by
  have hm : c * 2 + j < b.numberOfChannels * 2 := by omega
  have hx : (pos + 1) * (b.numberOfChannels * 2)
      = pos * (b.numberOfChannels * 2) + b.numberOfChannels * 2 := by ring
  rw [bufferToWav_decompose,
    List.getElem?_append_right (by rw [specHeader_length]; exact Nat.le_add_right 44 _),
    specHeader_length, Nat.add_sub_cancel_left]
  by_cases hcase : pos < len - 44
  · have hs : (pos + 1) * (b.numberOfChannels * 2) ≤ (len - 44) * (b.numberOfChannels * 2) :=
      Nat.mul_le_mul_right _ (by omega)
    rw [List.getElem?_append_left (by rw [wavWritten_length]; omega)]
    unfold wavWritten
    rw [flatMap_range'_getElem? (sampleBytes b) (b.numberOfChannels * 2)
        (sampleBytes_length b) (len - 44) 44 pos (c * 2 + j) hcase hm]
    unfold sampleBytes
    rw [flatMap_range_getElem?
        (fun i => int16LE (quantizeAt (b.channelData.getD i []) (44 + pos))) 2
        (fun _ => rfl) b.numberOfChannels c j hc hj]
    rw [quantizeAt_of_le _ _ (by omega)]
    interval_cases j
    · rfl
    · rfl
  · have hge : (len - 44) * (b.numberOfChannels * 2) ≤ pos * (b.numberOfChannels * 2) :=
      Nat.mul_le_mul_right _ (by omega)
    have hs : (pos + 1) * (b.numberOfChannels * 2) ≤ len * (b.numberOfChannels * 2) :=
      Nat.mul_le_mul_right _ (by omega)
    have hy : len * b.numberOfChannels * 2 = len * (b.numberOfChannels * 2) := by ring
    rw [List.getElem?_append_right (by rw [wavWritten_length]; omega), wavWritten_length,
      List.getElem?_replicate_of_lt (by omega)]

/-- C5 amended: when a channel holds fewer than `frameLimit` samples, the
encoder does not fail: it still returns the full
`frameLimit × channelCount × 2 + 44`-byte container, and every sample read
past the end of its channel is encoded as the 16-bit value 0 (in
JavaScript, `undefined → NaN → NaN|0 = 0`). -/
theorem C5_amended_zero_fill (b : AudioBuffer) (len c pos : Nat)
    (hc : c < b.numberOfChannels) (hpos : pos < len)
    (hshort : (b.channelData.getD c []).length ≤ pos) :
    (bufferToWav b len).length = len * b.numberOfChannels * 2 + 44 ∧
    (bufferToWav b len)[44 + (pos * (b.numberOfChannels * 2) + c * 2)]? = some 0 ∧
    (bufferToWav b len)[44 + (pos * (b.numberOfChannels * 2) + c * 2) + 1]? = some 0 := by
  refine ⟨bufferToWav_length b len, ?_, ?_⟩
  · have hb := wavData_byte_zero b len c pos 0 hc hpos (by omega) hshort
    simpa using hb
  · have hb := wavData_byte_zero b len c pos 1 hc hpos (by omega) hshort
    rw [show 44 + (pos * (b.numberOfChannels * 2) + c * 2) + 1
        = 44 + (pos * (b.numberOfChannels * 2) + (c * 2 + 1)) from by omega]
    exact hb

theorem C5_amended_witness :
    (bufferToWav shortBuf 1).length = 1 * shortBuf.numberOfChannels * 2 + 44 ∧
    (bufferToWav shortBuf 1)[44 + (0 * (shortBuf.numberOfChannels * 2) + 0 * 2)]? = some 0 ∧
    (bufferToWav shortBuf 1)[44 + (0 * (shortBuf.numberOfChannels * 2) + 0 * 2) + 1]? = some 0 :=
  C5_amended_zero_fill shortBuf 1 0 0 (by decide) (by decide) (by decide)

/-- C6: the upstream generation call is made only on requests for which the
identity verification was called exactly once and succeeded (the relay
awaits the two calls sequentially and in that order); in particular a POST
request carrying no Authorization header gets status 401 and causes zero
upstream calls. -/
theorem C6_verify_gates_upstream (env : RelayEnv) (req : RelayRequest) :
    ((callGemini env req).2.upstreamCalls ≠ [] →
      ∃ tok, (callGemini env req).2.verifyCalls = [tok] ∧
        (env.verifyIdToken tok).isOk = true) ∧
    (req.method = "POST" → req.authorization = none →
      (callGemini env req).1.status = 401 ∧ (callGemini env req).2.upstreamCalls = []) := by
  constructor
  · intro hne
    by_cases hm : req.method = "POST"
    · rcases ha : req.authorization with _ | authHeader
      · unfold callGemini at hne
        simp [hm, ha] at hne
      · by_cases hs : startsWithBearer authHeader = true
        · rcases hv : env.verifyIdToken (bearerToken authHeader) with e | u
          · unfold callGemini at hne
            simp [hm, ha, hs, hv] at hne
          · refine ⟨bearerToken authHeader, ?_, by simp [hv, Except.isOk, Except.toBool]⟩
            unfold callGemini
            simp only [hm, ha, hs, hv]
            simp only [ne_eq, not_true_eq_false, if_false, Bool.not_true, if_true]
            split
            · simp
            · split
              · simp
              · split <;> simp
        · unfold callGemini at hne
          simp [hm, ha, hs] at hne
    · unfold callGemini at hne
      simp [hm] at hne
  · intro hm ha
    unfold callGemini
    simp [hm, ha]

theorem C6_witness :
    (callGemini envW reqNoAuth).1.status = 401 ∧
      (callGemini envW reqNoAuth).2.upstreamCalls = [] :=
  (C6_verify_gates_upstream envW reqNoAuth).2 rfl rfl

/-- C7: a POST request whose bearer token verifies and whose upstream
credential is configured, but whose body is missing `model` (or `contents`),
gets status 400 and causes no upstream call. -/
theorem C7_missing_model_400 (env : RelayEnv) (req : RelayRequest) (h : String)
    (hm : req.method = "POST") (ha : req.authorization = some h)
    (hs : startsWithBearer h = true)
    (hv : env.verifyIdToken (bearerToken h) = .ok ())
    (hk : strTruthy (jsOrString env.apiKeyConfig env.apiKeyEnv) = true)
    (hmiss : req.body.model = JSVal.undefined ∨ req.body.contents = JSVal.undefined) :
    (callGemini env req).1.status = 400 ∧ (callGemini env req).2.upstreamCalls = [] := by
  unfold callGemini
  rcases hmiss with hmiss | hmiss <;> simp [hm, ha, hs, hv, hk, hmiss, JSVal.truthy]

theorem C7_witness :
    (callGemini envW reqMissingModel).1.status = 400 ∧
      (callGemini envW reqMissingModel).2.upstreamCalls = [] :=
  C7_missing_model_400 envW reqMissingModel ("Bearer VALIDTOKEN") rfl rfl (by decide)
    rfl rfl (Or.inl rfl)

/-- C8: a request whose method is not POST gets status 405, whatever its
headers and body, and causes neither a verification call nor an upstream
call. -/
theorem C8_non_post_405 (env : RelayEnv) (req : RelayRequest)
    (hm : req.method ≠ "POST") :
    (callGemini env req).1.status = 405 ∧
      (callGemini env req).2.verifyCalls = [] ∧
      (callGemini env req).2.upstreamCalls = [] := by
  unfold callGemini
  simp [hm]

theorem C8_witness :
    (callGemini envW reqGet).1.status = 405 ∧
      (callGemini envW reqGet).2.verifyCalls = [] ∧
      (callGemini envW reqGet).2.upstreamCalls = [] :=
  C8_non_post_405 envW reqGet (by decide)

/-- C9: a POST request that passes authentication, configuration and
payload validation, and whose upstream call returns a result, gets status
200 with exactly the fields `text`, `candidates` and `usageMetadata` of the
upstream result, unmodified. -/
theorem C9_success_passthrough (env : RelayEnv) (req : RelayRequest)
    (h : String) (r : GenResult)
    (hm : req.method = "POST") (ha : req.authorization = some h)
    (hs : startsWithBearer h = true)
    (hv : env.verifyIdToken (bearerToken h) = .ok ())
    (hk : strTruthy (jsOrString env.apiKeyConfig env.apiKeyEnv) = true)
    (hmodel : req.body.model.truthy = true) (hcont : req.body.contents.truthy = true)
    (hup : env.generateContent
        ⟨req.body.model, req.body.contents,
          if req.body.config.truthy then req.body.config else .object []⟩ = .ok r) :
    (callGemini env req).1 =
      ⟨200, .object [("text", r.text), ("candidates", r.candidates),
        ("usageMetadata", r.usageMetadata)]⟩ := by
  unfold callGemini
  simp [hm, ha, hs, hv, hk, hmodel, hcont, hup]

theorem C9_witness :
    (callGemini envW reqOk).1 =
      ⟨200, .object [("text", resultW.text), ("candidates", resultW.candidates),
        ("usageMetadata", resultW.usageMetadata)]⟩ :=
  C9_success_passthrough envW reqOk ("Bearer VALIDTOKEN") resultW rfl rfl (by decide)
    rfl rfl rfl rfl rfl

/-- C10: a POST request whose Authorization header is present but does not
start with "Bearer " gets the same 401 "no token" response as an absent
header, and the verification call is never made. -/
theorem C10_malformed_auth_401 (env : RelayEnv) (req : RelayRequest) (h : String)
    (hm : req.method = "POST") (ha : req.authorization = some h)
    (hs : startsWithBearer h = false) :
    (callGemini env req).1 =
      ⟨401, .object [("error", .string ("Unauthorized - No token provided"))]⟩ ∧
      (callGemini env req).2.verifyCalls = [] := by
  unfold callGemini
  simp [hm, ha, hs]

theorem C10_witness :
    (callGemini envW reqBadAuth).1 =
      ⟨401, .object [("error", .string ("Unauthorized - No token provided"))]⟩ ∧
      (callGemini envW reqBadAuth).2.verifyCalls = [] :=
  C10_malformed_auth_401 envW reqBadAuth ("Basic abc") rfl rfl (by decide)

end LiaJettes
